import Mathlib

/-!
Verification of the ESP32 firmware core (radio frequency-sweep transmitter and
scan-and-indicate feedback loop) against its specification.

The Rust source is embedded shallowly:

* `generate_random_noise` (src/main.rs, `generate_random_noise`) is the linear
  congruential noise generator; the wall-clock timestamp that seeds it is not
  available in a pure embedding, so it is passed as an explicit parameter.
* The radio sweep worker (src/main.rs, `setup_nrf24l01_and_send_noise`, the
  `Sweeping` loop) is embedded as a trace generator: driver calls
  (`set_channel`, `write`) and sleeps become events, and the fallibility of
  the driver is a boolean oracle per channel.
* The scan indicator worker (src/scan.rs, `scan_networks_continuously`,
  `flash_green`, `flash_red`, `flash_red_waiting`, `set_led_color`,
  `perform_wifi_scan`) is embedded likewise with LED-duty events.
* The `/color` HTTP handler (src/main.rs, `Color::try_from` and the `/color`
  `fn_handler`) is embedded at byte level, including Rust's UTF-8 validation
  of `std::str::from_utf8`, `str::get`'s char-boundary checks (whose `unwrap`
  can panic), and `u8::from_str_radix`'s sign handling.
-/

/-! ## Noise generator (src/main.rs `generate_random_noise`) -/

/-- One step of the linear congruential recurrence from
`generate_random_noise`: `seed = seed.wrapping_mul(1103515245).wrapping_add(12345)`
on `u64`, i.e. mod `2^64`. -/
def lcg_step (seed : Nat) : Nat :=
  (seed * 1103515245 + 12345) % 2 ^ 64

/-- The push loop of `generate_random_noise`: repeatedly advance the seed and
push `(seed >> 16) as u8`. -/
def noise_bytes (seed : Nat) : Nat → List Nat
  | 0 => []
  | n + 1 =>
    let s := lcg_step seed
    (s / 2 ^ 16) % 2 ^ 8 :: noise_bytes s n

/-- Function `generate_random_noise(length)` from src/main.rs. The wall-clock
nanosecond timestamp (cast `as u64`) is passed explicitly since a pure
embedding has no clock. -/
def generate_random_noise (timestamp : Nat) (length : Nat) : List Nat :=
  noise_bytes (timestamp % 2 ^ 64) length

/-! ## Radio sweep worker (src/main.rs `setup_nrf24l01_and_send_noise`) -/

/-- Observable events of the sweep worker's `Sweeping` loop: programming the
transceiver channel (with the driver call's outcome), transmitting a payload
(with outcome), and blocking sleeps. -/
inductive SweepEvent
  | setChannel (c : Nat) (ok : Bool)
  | transmit (c : Nat) (payload : List Nat) (ok : Bool)
  | sleepMs (ms : Nat)
deriving DecidableEq, Repr

/-- The body of the inner `for channel in start_channel..=end_channel` loop
for one channel: `set_channel`, then on success generate 32 noise bytes,
`write` them, and sleep 50 ms; on `set_channel` failure the Rust `continue`
skips the transmit AND the 50 ms sleep. `setOk`/`txOk` are the outcomes the
driver would return, `seed` the timestamp observed by this channel's
`generate_random_noise` call. -/
def channel_step (setOk txOk : Bool) (c : Nat) (seed : Nat) : List SweepEvent :=
  if setOk then
    [SweepEvent.setChannel c true,
     SweepEvent.transmit c (generate_random_noise seed 32) txOk,
     SweepEvent.sleepMs 50]
  else
    [SweepEvent.setChannel c false]

/-- One full range pass: the inner loop over `start_channel..=end_channel`
(ascending, inclusive; empty when `start > end`, matching Rust's `..=`). -/
def range_pass (setOk txOk : Nat → Bool) (seed : Nat → Nat)
    (startChannel endChannel : Nat) : List SweepEvent :=
  (List.range' startChannel (endChannel + 1 - startChannel)).flatMap
    (fun c => channel_step (setOk c) (txOk c) c (seed c))

/-- The fixed `frequency_ranges` table of src/main.rs. -/
def frequency_ranges : List (Nat × Nat) :=
  [(2, 22), (7, 27), (12, 32), (17, 37), (22, 42)]

/-- One iteration of the outer `loop`: read the range at `range_index`, run
the inner channel loop, advance `range_index = (range_index + 1) % len`, and
sleep 500 ms. Returns the event trace of the iteration and the new
`range_index`. -/
def sweep_loop_body (setOk txOk : Nat → Bool) (seed : Nat → Nat)
    (ranges : List (Nat × Nat)) (rangeIndex : Nat) : List SweepEvent × Nat :=
  let r := ranges.getD rangeIndex (0, 0)
  (range_pass setOk txOk seed r.1 r.2 ++ [SweepEvent.sleepMs 500],
   (rangeIndex + 1) % ranges.length)

/-- The worker's loop run for `k` iterations, starting (as in the source)
with `range_index = 0`; returns the accumulated trace and the cursor value.
The loop has no exit condition, so the trace is defined for every `k`.
`seeds k c` is the timestamp seen on channel `c` of iteration `k`. -/
def sweep_trace (setOk txOk : Nat → Bool) (seeds : Nat → Nat → Nat)
    (ranges : List (Nat × Nat)) : Nat → List SweepEvent × Nat
  | 0 => ([], 0)
  | k + 1 =>
    let p := sweep_trace setOk txOk seeds ranges k
    let q := sweep_loop_body setOk txOk (seeds k) ranges p.2
    (p.1 ++ q.1, q.2)

/-- The channels on which a `set_channel` call was attempted, in trace order. -/
def attempted_channels (t : List SweepEvent) : List Nat :=
  t.filterMap (fun ev =>
    match ev with
    | SweepEvent.setChannel c _ => some c
    | _ => none)

/-! ## Scan indicator worker (src/scan.rs) -/

/-- The three PWM LED channels of src/main.rs (`channel0`/gpio3 red,
`channel1`/gpio4 green, `channel2`/gpio5 blue). -/
inductive LedChan
  | red
  | green
  | blue
deriving DecidableEq, Repr

/-- Observable events of the indicator worker: a `set_duty` write on one LED
channel, or a blocking sleep. -/
inductive LedEvent
  | setDuty (ch : LedChan) (v : Nat)
  | sleepMs (ms : Nat)
deriving DecidableEq, Repr

/-- Function `set_led_color` (src/scan.rs): write the red duty, then the green duty.
The blue channel is not touched. -/
def set_led_color (red green : Nat) : List LedEvent :=
  [LedEvent.setDuty LedChan.red red, LedEvent.setDuty LedChan.green green]

/-- Function `flash_green` (src/scan.rs): `flash_interval = 100`,
`total_flashes = duration_ms / flash_interval`; on even `i` set (0, 255), on
odd set (0, 0), sleep the interval each step; afterwards force (0, 0). -/
def flash_green (durationMs : Nat) : List LedEvent :=
  ((List.range (durationMs / 100)).flatMap (fun i =>
    (if i % 2 = 0 then set_led_color 0 255 else set_led_color 0 0)
      ++ [LedEvent.sleepMs 100]))
  ++ set_led_color 0 0

/-- Function `flash_red` (src/scan.rs): same shape as `flash_green` with
(255, 0) as the on-state. -/
def flash_red (durationMs : Nat) : List LedEvent :=
  ((List.range (durationMs / 100)).flatMap (fun i =>
    (if i % 2 = 0 then set_led_color 255 0 else set_led_color 0 0)
      ++ [LedEvent.sleepMs 100]))
  ++ set_led_color 0 0

/-- Function `flash_red_waiting` (src/scan.rs): `flash_interval = 1000`, otherwise the
same shape with (255, 0) as the on-state. -/
def flash_red_waiting (durationMs : Nat) : List LedEvent :=
  ((List.range (durationMs / 1000)).flatMap (fun i =>
    (if i % 2 = 0 then set_led_color 255 0 else set_led_color 0 0)
      ++ [LedEvent.sleepMs 1000]))
  ++ set_led_color 0 0

/-- Function `perform_wifi_scan` (src/scan.rs): returns fixed placeholder data, never
an error. Signal strengths are `i8` values. -/
def perform_wifi_scan : Except String (List (String × Int)) :=
  Except.ok [("Network-1", -45), ("Network-2", -67), ("Wokwi-GUEST", -30)]

/-- One iteration of `scan_networks_continuously`'s `loop`: on `Ok` run
`flash_green(500)`, on `Err` run `flash_red(500)`, then unconditionally
`flash_red_waiting(10000)`. -/
def scan_loop_body (scanResult : Except String (List (String × Int))) :
    List LedEvent :=
  (match scanResult with
   | Except.ok _ => flash_green 500
   | Except.error _ => flash_red 500)
  ++ flash_red_waiting 10000

/-- The indicator worker's loop run for `n` iterations, with `scans k` the
result the scan primitive returns on iteration `k`. The loop has no exit
condition, so the trace is defined for every `n`. -/
def scan_trace (scans : Nat → Except String (List (String × Int))) :
    Nat → List LedEvent
  | 0 => []
  | n + 1 => scan_trace scans n ++ scan_loop_body (scans n)

/-- PWM duty state of the three LED channels. -/
structure LedState where
  r : Nat
  g : Nat
  b : Nat
deriving DecidableEq, Repr

/-- Replay a trace of LED events over a duty state. -/
def led_apply (t : List LedEvent) (st : LedState) : LedState :=
  t.foldl (fun s ev =>
    match ev with
    | LedEvent.setDuty LedChan.red v => { s with r := v }
    | LedEvent.setDuty LedChan.green v => { s with g := v }
    | LedEvent.setDuty LedChan.blue v => { s with b := v }
    | LedEvent.sleepMs _ => s) st

/-- Total milliseconds slept along a trace of LED events. -/
def sleep_total (t : List LedEvent) : Nat :=
  t.foldl (fun a ev =>
    match ev with
    | LedEvent.sleepMs m => a + m
    | _ => a) 0

/-- Whether an LED event writes the blue channel. -/
def writes_blue (ev : LedEvent) : Bool :=
  match ev with
  | LedEvent.setDuty LedChan.blue _ => true
  | _ => false

/-! ## The POST /color handler (src/main.rs `Color::try_from` and fn_handler) -/

/-- Whether a byte is in the UTF-8 continuation range `0x80..=0xBF`. -/
def utf8_cont (b : Nat) : Bool :=
  decide (128 ≤ b ∧ b ≤ 191)

/-- Classification of a UTF-8 lead byte: `some (n, lo, hi)` when the byte
opens a well-formed sequence with `n` continuation bytes whose first one must
lie in `lo..=hi` (the bounds encode the shortest-form and surrogate/range
restrictions of Rust `std::str::from_utf8`); `none` for an invalid lead
byte (a bare continuation byte, 0xC0/0xC1, or above 0xF4). -/
def utf8_class (b : Nat) : Option (Nat × Nat × Nat) :=
  if b ≤ 127 then some (0, 0, 0)
  else if 194 ≤ b ∧ b ≤ 223 then some (1, 128, 191)
  else if b = 224 then some (2, 160, 191)
  else if (225 ≤ b ∧ b ≤ 236) ∨ b = 238 ∨ b = 239 then some (2, 128, 191)
  else if b = 237 then some (2, 128, 159)
  else if b = 240 then some (3, 144, 191)
  else if 241 ≤ b ∧ b ≤ 243 then some (3, 128, 191)
  else if b = 244 then some (3, 128, 143)
  else none

/-- State machine behind `valid_utf8`: `need` pending continuation bytes, the
next one constrained to `lo..=hi` (subsequent ones to the generic
continuation range `0x80..=0xBF`). -/
def valid_utf8_go : List Nat → Nat → Nat → Nat → Bool
  | [], need, _, _ => decide (need = 0)
  | b :: rest, need, lo, hi =>
    if need = 0 then
      match utf8_class b with
      | none => false
      | some q => valid_utf8_go rest q.1 q.2.1 q.2.2
    else
      decide (lo ≤ b ∧ b ≤ hi) && valid_utf8_go rest (need - 1) 128 191

/-- Rust `std::str::from_utf8` validity over a byte list (standard UTF-8
well-formedness: shortest forms only, no surrogates, max U+10FFFF). -/
def valid_utf8 (bs : List Nat) : Bool :=
  valid_utf8_go bs 0 0 0

/-- Rust `str::is_char_boundary(i)` over the underlying bytes: true at 0,
true at the length, true at a byte that is not a continuation byte, false
otherwise (including past the end). -/
def is_char_boundary (bs : List Nat) (i : Nat) : Bool :=
  if i = 0 then true
  else if i < bs.length then !(utf8_cont (bs.getD i 0))
  else decide (i = bs.length)

/-- Rust `char::to_digit(16)` on a byte: `0-9`, `a-f`, `A-F`. -/
def to_digit_16 (b : Nat) : Option Nat :=
  if 48 ≤ b ∧ b ≤ 57 then some (b - 48)
  else if 97 ≤ b ∧ b ≤ 102 then some (b - 87)
  else if 65 ≤ b ∧ b ≤ 70 then some (b - 55)
  else none

/-- Digit-accumulation loop of `u8::from_str_radix(.., 16)` with the `u8`
overflow check (`checked_mul` / `checked_add` combined: fail when the new
accumulator would exceed 255). -/
def parse_u8_digits : List Nat → Nat → Option Nat
  | [], acc => some acc
  | d :: ds, acc =>
    match to_digit_16 d with
    | none => none
    | some v =>
      if acc * 16 + v ≤ 255 then parse_u8_digits ds (acc * 16 + v) else none

/-- Rust `u8::from_str_radix(s, 16)` over the bytes of `s`: empty input is an
error; a leading `+` (byte 43) is consumed as a sign (alone it is an
"empty digits" error); `-` is not a sign for unsigned types and falls through
as an invalid digit. -/
def from_str_radix_u8 (bs : List Nat) : Option Nat :=
  match bs with
  | [] => none
  | b :: rest =>
    if b = 43 then
      if rest = [] then none else parse_u8_digits rest 0
    else parse_u8_digits (b :: rest) 0

/-- Outcome of one `/color` request as observed by the client and the LED
state: a handler panic (an `unwrap` on `None`), an error response (an
`anyhow` error returned through `?`), or the three duty-cycle writes. -/
inductive HandlerOutcome
  | panic
  | errorResponse
  | colorSet (r g b : Nat)
deriving DecidableEq, Repr

/-- Method `Color::try_from(&str)` (src/main.rs) over the string's bytes, which the
handler guarantees number six. Each field evaluates
`value.get(lo..hi).unwrap()` — a panic when `lo` or `hi` is not a char
boundary — then `u8::from_str_radix(.., 16)?`, in source order r, g, b. -/
def color_try_from (bs : List Nat) : HandlerOutcome :=
  if ¬ (is_char_boundary bs 0 ∧ is_char_boundary bs 2) then HandlerOutcome.panic
  else
    match from_str_radix_u8 (bs.take 2) with
    | none => HandlerOutcome.errorResponse
    | some r =>
      if ¬ (is_char_boundary bs 2 ∧ is_char_boundary bs 4) then HandlerOutcome.panic
      else
        match from_str_radix_u8 ((bs.drop 2).take 2) with
        | none => HandlerOutcome.errorResponse
        | some g =>
          if ¬ (is_char_boundary bs 4 ∧ is_char_boundary bs 6) then HandlerOutcome.panic
          else
            match from_str_radix_u8 ((bs.drop 4).take 2) with
            | none => HandlerOutcome.errorResponse
            | some b => HandlerOutcome.colorSet r g b

/-- The `/color` fn_handler (src/main.rs): `read_exact` of a 6-byte buffer
(an error response when the body is shorter), `std::str::from_utf8(..)?`,
then `Color::try_from`; on success the three duties are set to r, g, b. -/
def color_handler (body : List Nat) : HandlerOutcome :=
  if body.length < 6 then HandlerOutcome.errorResponse
  else
    let buf := body.take 6
    if valid_utf8 buf then color_try_from buf else HandlerOutcome.errorResponse

/-- Whether a byte is an ASCII hex digit (the spec's "six ASCII hex digits"
condition is `bs.all is_ascii_hexdigit` with `bs.length = 6`). -/
def is_ascii_hexdigit (b : Nat) : Bool :=
  decide ((48 ≤ b ∧ b ≤ 57) ∨ (97 ≤ b ∧ b ≤ 102) ∨ (65 ≤ b ∧ b ≤ 70))

/-- Whether a sweep event is a transmit on channel `c`. -/
def transmits_on (c : Nat) (ev : SweepEvent) : Bool :=
  match ev with
  | SweepEvent.transmit cHit _ _ => cHit == c
  | _ => false

/-! ## Helper lemmas -/

theorem noise_bytes_length (n : Nat) : ∀ seed, (noise_bytes seed n).length = n := by
  induction n with
  | zero => intro seed; rfl
  | succ n ih => intro seed; simp [noise_bytes, ih]

theorem noise_bytes_getD (n : Nat) :
    ∀ seed i, (noise_bytes seed n).getD i 0 =
      if i < n then (lcg_step^[i + 1] seed / 2 ^ 16) % 2 ^ 8 else 0 := by
  induction n with
  | zero => intro seed i; simp [noise_bytes]
  | succ n ih =>
    intro seed i
    cases i with
    | zero => simp [noise_bytes]
    | succ i =>
      simp only [noise_bytes, List.getD_cons_succ, ih]
      rw [Function.iterate_succ_apply lcg_step (i + 1) seed]
      simp [Nat.succ_lt_succ_iff]

theorem led_apply_append (a b : List LedEvent) (st : LedState) :
    led_apply (a ++ b) st = led_apply b (led_apply a st) := by
  simp [led_apply, List.foldl_append]

theorem countP_flatMap_ones {α β : Type} (p : β → Bool) (f : α → List β) :
    ∀ l : List α, (∀ a ∈ l, (f a).countP p = 1) →
      (l.flatMap f).countP p = l.length := by
  intro l
  induction l with
  | nil => intro _; rfl
  | cons a l ih =>
    intro h
    simp only [List.flatMap_cons, List.countP_append, List.length_cons]
    rw [h a (by simp), ih (fun x hx => h x (by simp [hx]))]
    omega

/-! ## Claim theorems -/

/-- Claim C7: for every length, `generate_random_noise(length)` returns
exactly `length` bytes (in particular the empty sequence for length 0), and
the byte at position `i` is obtained by iterating the linear congruential
recurrence `seed = seed * 1103515245 + 12345 (mod 2^64)` `i + 1` times from
the per-call timestamp-derived seed, shifting right 16 bits and truncating to
a byte. -/
theorem noise_c7 (ts len i : Nat) :
    (generate_random_noise ts len).length = len
    ∧ generate_random_noise ts 0 = []
    ∧ (generate_random_noise ts len).getD i 0 =
        (if i < len then (lcg_step^[i + 1] (ts % 2 ^ 64) / 2 ^ 16) % 2 ^ 8 else 0) := by
  refine ⟨noise_bytes_length len (ts % 2 ^ 64), rfl, ?_⟩
  exact noise_bytes_getD len (ts % 2 ^ 64) i

/-- Claim C9: the scan primitive consumed by the indicator worker
(`perform_wifi_scan`) always returns success with the same fixed non-empty
list of exactly three `(label, signal_strength)` placeholder entries, never a
failure; consequently the indicator iteration built on it always takes the
green path. -/
theorem scan_primitive_c9 :
    perform_wifi_scan =
      Except.ok [("Network-1", (-45 : Int)), ("Network-2", -67), ("Wokwi-GUEST", -30)]
    ∧ ([("Network-1", (-45 : Int)), ("Network-2", -67), ("Wokwi-GUEST", -30)]).length = 3
    ∧ ([("Network-1", (-45 : Int)), ("Network-2", -67), ("Wokwi-GUEST", -30)]) ≠ []
    ∧ (∀ e : String, perform_wifi_scan ≠ Except.error e)
    ∧ scan_loop_body perform_wifi_scan = flash_green 500 ++ flash_red_waiting 10000 := by
  refine ⟨rfl, rfl, by simp, fun e => by simp [perform_wifi_scan], rfl⟩

/-- Claim C5 counterexample: the claim says the worker sleeps 50 ms for every
channel step regardless of the set-channel outcome, but when `set_channel`
fails the Rust `continue` skips the 50 ms sleep: the step trace for a failed
channel 2 contains no sleep event at all. -/
theorem dwell_c5_counterexample :
    ¬ (SweepEvent.sleepMs 50 ∈ channel_step false true 2 0) := by
  decide

/-- Claim C5 amended: for every channel whose `set_channel` call succeeds the
worker sleeps 50 ms (as the last action of the step) regardless of the
transmit outcome; when `set_channel` fails, the step is only the failed
`set_channel` call — the transmit and the 50 ms sleep are skipped. -/
theorem dwell_c5_amended (txOk : Bool) (c seed : Nat) :
    SweepEvent.sleepMs 50 ∈ channel_step true txOk c seed
    ∧ (channel_step true txOk c seed).getLast? = some (SweepEvent.sleepMs 50)
    ∧ channel_step false txOk c seed = [SweepEvent.setChannel c false] := by
  refine ⟨by simp [channel_step], by simp [channel_step], rfl⟩

theorem led_apply_off_tail (t : List LedEvent) (st : LedState) :
    (led_apply (t ++ set_led_color 0 0) st).r = 0
    ∧ (led_apply (t ++ set_led_color 0 0) st).g = 0 := by
  rw [led_apply_append]
  simp [led_apply, set_led_color]

/-- Claim C3: each flash helper performs exactly `D / I` loop steps, writing
the active color at duty 255 on even step index and duty 0 on odd step index
(the inactive one of red/green held at 0), sleeping `I` ms after each step;
and after the loop both the red and green channels are forced to duty 0, so
replaying the helper from any LED state ends with red = green = 0 regardless
of the parity of `D / I`. -/
theorem flash_c3 (d : Nat) (st : LedState) :
    flash_green d = (List.range (d / 100)).flatMap (fun i =>
        [LedEvent.setDuty LedChan.red 0,
         LedEvent.setDuty LedChan.green (if i % 2 = 0 then 255 else 0),
         LedEvent.sleepMs 100])
      ++ [LedEvent.setDuty LedChan.red 0, LedEvent.setDuty LedChan.green 0]
    ∧ flash_red d = (List.range (d / 100)).flatMap (fun i =>
        [LedEvent.setDuty LedChan.red (if i % 2 = 0 then 255 else 0),
         LedEvent.setDuty LedChan.green 0,
         LedEvent.sleepMs 100])
      ++ [LedEvent.setDuty LedChan.red 0, LedEvent.setDuty LedChan.green 0]
    ∧ flash_red_waiting d = (List.range (d / 1000)).flatMap (fun i =>
        [LedEvent.setDuty LedChan.red (if i % 2 = 0 then 255 else 0),
         LedEvent.setDuty LedChan.green 0,
         LedEvent.sleepMs 1000])
      ++ [LedEvent.setDuty LedChan.red 0, LedEvent.setDuty LedChan.green 0]
    ∧ (led_apply (flash_green d) st).r = 0 ∧ (led_apply (flash_green d) st).g = 0
    ∧ (led_apply (flash_red d) st).r = 0 ∧ (led_apply (flash_red d) st).g = 0
    ∧ (led_apply (flash_red_waiting d) st).r = 0
    ∧ (led_apply (flash_red_waiting d) st).g = 0
    ∧ (flash_green d).countP (fun ev => ev == LedEvent.sleepMs 100) = d / 100
    ∧ (flash_red d).countP (fun ev => ev == LedEvent.sleepMs 100) = d / 100
    ∧ (flash_red_waiting d).countP (fun ev => ev == LedEvent.sleepMs 1000) = d / 1000 := by
  have hg : flash_green d = (List.range (d / 100)).flatMap (fun i =>
      [LedEvent.setDuty LedChan.red 0,
       LedEvent.setDuty LedChan.green (if i % 2 = 0 then 255 else 0),
       LedEvent.sleepMs 100])
      ++ [LedEvent.setDuty LedChan.red 0, LedEvent.setDuty LedChan.green 0] := by
    unfold flash_green set_led_color
    congr 1
    congr 1
    funext i
    by_cases h : i % 2 = 0 <;> simp [h]
  have hr : flash_red d = (List.range (d / 100)).flatMap (fun i =>
      [LedEvent.setDuty LedChan.red (if i % 2 = 0 then 255 else 0),
       LedEvent.setDuty LedChan.green 0,
       LedEvent.sleepMs 100])
      ++ [LedEvent.setDuty LedChan.red 0, LedEvent.setDuty LedChan.green 0] := by
    unfold flash_red set_led_color
    congr 1
    congr 1
    funext i
    by_cases h : i % 2 = 0 <;> simp [h]
  have hw : flash_red_waiting d = (List.range (d / 1000)).flatMap (fun i =>
      [LedEvent.setDuty LedChan.red (if i % 2 = 0 then 255 else 0),
       LedEvent.setDuty LedChan.green 0,
       LedEvent.sleepMs 1000])
      ++ [LedEvent.setDuty LedChan.red 0, LedEvent.setDuty LedChan.green 0] := by
    unfold flash_red_waiting set_led_color
    congr 1
    congr 1
    funext i
    by_cases h : i % 2 = 0 <;> simp [h]
  have offg := led_apply_off_tail ((List.range (d / 100)).flatMap (fun i =>
    (if i % 2 = 0 then set_led_color 0 255 else set_led_color 0 0)
      ++ [LedEvent.sleepMs 100])) st
  have offr := led_apply_off_tail ((List.range (d / 100)).flatMap (fun i =>
    (if i % 2 = 0 then set_led_color 255 0 else set_led_color 0 0)
      ++ [LedEvent.sleepMs 100])) st
  have offw := led_apply_off_tail ((List.range (d / 1000)).flatMap (fun i =>
    (if i % 2 = 0 then set_led_color 255 0 else set_led_color 0 0)
      ++ [LedEvent.sleepMs 1000])) st
  have cg : (flash_green d).countP (fun ev => ev == LedEvent.sleepMs 100) = d / 100 := by
    rw [hg, List.countP_append]
    rw [countP_flatMap_ones _ _ _ (fun i _ => by
      by_cases h : i % 2 = 0 <;> simp [h, List.countP_cons])]
    simp [List.countP_cons]
  have cr : (flash_red d).countP (fun ev => ev == LedEvent.sleepMs 100) = d / 100 := by
    rw [hr, List.countP_append]
    rw [countP_flatMap_ones _ _ _ (fun i _ => by
      by_cases h : i % 2 = 0 <;> simp [h, List.countP_cons])]
    simp [List.countP_cons]
  have cw : (flash_red_waiting d).countP (fun ev => ev == LedEvent.sleepMs 1000) = d / 1000 := by
    rw [hw, List.countP_append]
    rw [countP_flatMap_ones _ _ _ (fun i _ => by
      by_cases h : i % 2 = 0 <;> simp [h, List.countP_cons])]
    simp [List.countP_cons]
  exact ⟨hg, hr, hw, offg.1, offg.2, offr.1, offr.2, offw.1, offw.2, cg, cr, cw⟩

/-- Claim C2: every indicator iteration runs the green flash for a scan
result and the red flash for a scan failure — both 500 ms of total sleep —
then unconditionally the red waiting pattern (10 s of total sleep); the trace
of `n + 1` iterations strictly extends the trace of `n` iterations for every
result stream, so a scan failure never terminates the loop. -/
theorem scan_c2 (scans : Nat → Except String (List (String × Int))) (n : Nat)
    (l : List (String × Int)) (emsg : String) :
    scan_trace scans (n + 1) = scan_trace scans n ++ scan_loop_body (scans n)
    ∧ scan_loop_body (Except.ok l) = flash_green 500 ++ flash_red_waiting 10000
    ∧ scan_loop_body (Except.error emsg) = flash_red 500 ++ flash_red_waiting 10000
    ∧ sleep_total (flash_green 500) = 500
    ∧ sleep_total (flash_red 500) = 500
    ∧ sleep_total (flash_red_waiting 10000) = 10000
    ∧ scan_trace scans (n + 1) ≠ scan_trace scans n := by
  have hlen : 0 < (scan_loop_body (scans n)).length := by
    cases hs : scans n <;>
      simp [scan_loop_body, flash_green, flash_red, flash_red_waiting, set_led_color]
  refine ⟨rfl, rfl, rfl, by decide, by decide, by decide, ?_⟩
  intro h
  have h1 : scan_trace scans (n + 1) = scan_trace scans n ++ scan_loop_body (scans n) := rfl
  rw [h1] at h
  have h2 := congrArg List.length h
  rw [List.length_append] at h2
  omega

theorem all_flatMap_events {α β : Type} (p : β → Bool) (f : α → List β) :
    ∀ l : List α, (l.flatMap f).all p = l.all (fun a => (f a).all p) := by
  intro l
  induction l with
  | nil => rfl
  | cons a l ih => simp [List.all_append, ih]

theorem led_apply_b_of_no_blue (t : List LedEvent) :
    ∀ st : LedState, t.all (fun ev => !writes_blue ev) = true →
      (led_apply t st).b = st.b := by
  induction t with
  | nil => intro st _; rfl
  | cons ev t ih =>
    intro st h
    rw [List.all_cons, Bool.and_eq_true] at h
    cases ev with
    | setDuty ch v =>
      cases ch with
      | red => exact ih _ h.2
      | green => exact ih _ h.2
      | blue => simp [writes_blue] at h
    | sleepMs m => exact ih _ h.2

theorem flash_helpers_no_blue (d : Nat) :
    (flash_green d).all (fun ev => !writes_blue ev) = true
    ∧ (flash_red d).all (fun ev => !writes_blue ev) = true
    ∧ (flash_red_waiting d).all (fun ev => !writes_blue ev) = true := by
  refine ⟨?_, ?_, ?_⟩ <;>
    · simp only [flash_green, flash_red, flash_red_waiting, List.all_append,
        all_flatMap_events, Bool.and_eq_true]
      constructor
      · rw [List.all_eq_true]
        intro i _
        by_cases h : i % 2 = 0 <;> simp [h, set_led_color, writes_blue]
      · simp [set_led_color, writes_blue]

theorem scan_trace_no_blue (scans : Nat → Except String (List (String × Int))) :
    ∀ n : Nat, (scan_trace scans n).all (fun ev => !writes_blue ev) = true := by
  intro n
  induction n with
  | zero => rfl
  | succ n ih =>
    have hb : (scan_loop_body (scans n)).all (fun ev => !writes_blue ev) = true := by
      cases hs : scans n with
      | ok l =>
        simp only [scan_loop_body, List.all_append, Bool.and_eq_true]
        exact ⟨(flash_helpers_no_blue 500).1, (flash_helpers_no_blue 10000).2.2⟩
      | error e =>
        simp only [scan_loop_body, List.all_append, Bool.and_eq_true]
        exact ⟨(flash_helpers_no_blue 500).2.1, (flash_helpers_no_blue 10000).2.2⟩
    show (scan_trace scans n ++ scan_loop_body (scans n)).all
      (fun ev => !writes_blue ev) = true
    rw [List.all_append, Bool.and_eq_true]
    exact ⟨ih, hb⟩

/-- Claim C10: every LED write of the scan-indicator worker and its flash
helpers targets only the red and green channels; no event of any indicator
trace writes the blue duty, so replaying any number of indicator iterations
over any LED state leaves the blue duty unchanged (a blue value set through
the HTTP color handler persists). -/
theorem indicator_blue_c10 (scans : Nat → Except String (List (String × Int)))
    (n d : Nat) (st : LedState) :
    (scan_trace scans n).all (fun ev => !writes_blue ev) = true
    ∧ (led_apply (scan_trace scans n) st).b = st.b
    ∧ (flash_green d).all (fun ev => !writes_blue ev) = true
    ∧ (flash_red d).all (fun ev => !writes_blue ev) = true
    ∧ (flash_red_waiting d).all (fun ev => !writes_blue ev) = true
    ∧ (led_apply (flash_green d) st).b = st.b
    ∧ (led_apply (flash_red d) st).b = st.b
    ∧ (led_apply (flash_red_waiting d) st).b = st.b := by
  have h1 := scan_trace_no_blue scans n
  have h2 := flash_helpers_no_blue d
  exact ⟨h1, led_apply_b_of_no_blue _ st h1, h2.1, h2.2.1, h2.2.2,
    led_apply_b_of_no_blue _ st h2.1, led_apply_b_of_no_blue _ st h2.2.1,
    led_apply_b_of_no_blue _ st h2.2.2⟩

theorem range'_eq_filter_range (s e : Nat) :
    List.range' s (e + 1 - s) =
      (List.range (e + 1)).filter (fun c => decide (s ≤ c ∧ c ≤ e)) := by
  by_cases hse : s ≤ e + 1
  · have hsplit : List.range (e + 1) = List.range' 0 s ++ List.range' s (e + 1 - s) := by
      rw [List.range_eq_range']
      have h := List.range'_append 0 s (e + 1 - s) 1
      rw [one_mul, Nat.zero_add] at h
      rw [h]
      congr 1
      omega
    rw [hsplit, List.filter_append]
    have h1 : (List.range' 0 s).filter (fun c => decide (s ≤ c ∧ c ≤ e)) = [] := by
      rw [List.filter_eq_nil_iff]
      intro a ha
      rw [List.mem_range'_1] at ha
      simp only [decide_eq_true_eq]
      omega
    have h2 : (List.range' s (e + 1 - s)).filter (fun c => decide (s ≤ c ∧ c ≤ e)) =
        List.range' s (e + 1 - s) := by
      rw [List.filter_eq_self]
      intro a ha
      rw [List.mem_range'_1] at ha
      simp only [decide_eq_true_eq]
      omega
    rw [h1, h2, List.nil_append]
  · have h0 : e + 1 - s = 0 := by omega
    rw [h0]
    show ([] : List Nat) = _
    symm
    rw [List.eq_nil_iff_forall_not_mem]
    intro a ha
    rw [List.mem_filter, List.mem_range] at ha
    have := ha.2
    simp only [decide_eq_true_eq] at this
    omega

/-- Claim C1: with every `set_channel` and `write` call succeeding, one
iteration of the sweep loop over the table entry `(s, e)` produces, for each
channel of the ascending list of exactly the channels `s ≤ c ≤ e`, a
successful `set_channel`, a transmit of a freshly generated 32-byte noise
payload, and a 50 ms sleep; then the range index advances (wrapping modulo
the table length, here back to 0) and a 500 ms sleep ends the iteration. The
loop repeats indefinitely: for every `k` the trace of `k + 1` iterations
extends the trace of `k` iterations by exactly one such loop body. -/
theorem sweep_c1 (seed : Nat → Nat) (s e : Nat) :
    (sweep_loop_body (fun _ => true) (fun _ => true) seed [(s, e)] 0).1
      = (List.range' s (e + 1 - s)).flatMap (fun c =>
          [SweepEvent.setChannel c true,
           SweepEvent.transmit c (generate_random_noise (seed c) 32) true,
           SweepEvent.sleepMs 50]) ++ [SweepEvent.sleepMs 500]
    ∧ (sweep_loop_body (fun _ => true) (fun _ => true) seed [(s, e)] 0).2 = 0
    ∧ List.range' s (e + 1 - s) =
        (List.range (e + 1)).filter (fun c => decide (s ≤ c ∧ c ≤ e))
    ∧ List.Sorted (· < ·) (List.range' s (e + 1 - s))
    ∧ (∀ c : Nat, (generate_random_noise (seed c) 32).length = 32)
    ∧ (∀ (setOk txOk : Nat → Bool) (seeds : Nat → Nat → Nat) (k : Nat),
        (sweep_trace setOk txOk seeds [(s, e)] (k + 1)).1
          = (sweep_trace setOk txOk seeds [(s, e)] k).1
            ++ (sweep_loop_body setOk txOk (seeds k) [(s, e)]
                  (sweep_trace setOk txOk seeds [(s, e)] k).2).1) := by
  refine ⟨?_, by simp [sweep_loop_body], range'_eq_filter_range s e, ?_, ?_, ?_⟩
  · simp only [sweep_loop_body, range_pass, List.getD]
    congr 1
  · exact List.Pairwise.imp (fun h => h) (List.pairwise_lt_range' s (e + 1 - s))
  · intro c
    exact noise_bytes_length 32 _
  · intro setOk txOk seeds k
    rfl

theorem sweep_trace_idx (setOk txOk : Nat → Bool) (seeds : Nat → Nat → Nat)
    (ranges : List (Nat × Nat)) :
    ∀ k : Nat, (sweep_trace setOk txOk seeds ranges k).2 = k % ranges.length := by
  intro k
  induction k with
  | zero => simp [sweep_trace]
  | succ k ih =>
    show (sweep_loop_body setOk txOk (seeds k) ranges
      (sweep_trace setOk txOk seeds ranges k).2).2 = (k + 1) % ranges.length
    rw [ih]
    show ((k % ranges.length) + 1) % ranges.length = (k + 1) % ranges.length
    exact Nat.mod_add_mod k ranges.length 1

/-- Claim C4: the sweep cursor starts at 0, is advanced to
`(range_index + 1) mod table_length` exactly once per full range pass, equals
`k mod table_length` after `k` passes for any table and any driver outcomes,
and for the program's 5-entry `frequency_ranges` table never exceeds
`table_length - 1`. -/
theorem sweep_cursor_c4 (setOk txOk : Nat → Bool) (seeds : Nat → Nat → Nat)
    (ranges : List (Nat × Nat)) (k : Nat) :
    (sweep_trace setOk txOk seeds ranges 0).2 = 0
    ∧ (sweep_trace setOk txOk seeds ranges (k + 1)).2
        = ((sweep_trace setOk txOk seeds ranges k).2 + 1) % ranges.length
    ∧ (sweep_trace setOk txOk seeds ranges k).2 = k % ranges.length
    ∧ (sweep_trace setOk txOk seeds frequency_ranges k).2 = k % 5
    ∧ (sweep_trace setOk txOk seeds frequency_ranges k).2
        ≤ frequency_ranges.length - 1 := by
  refine ⟨rfl, rfl, sweep_trace_idx setOk txOk seeds ranges k, ?_, ?_⟩
  · rw [sweep_trace_idx setOk txOk seeds frequency_ranges k]
    rfl
  · rw [sweep_trace_idx setOk txOk seeds frequency_ranges k]
    show k % 5 ≤ 5 - 1
    omega

theorem attempted_channel_steps (setOk txOk : Nat → Bool) (seed : Nat → Nat) :
    ∀ l : List Nat,
      attempted_channels (l.flatMap
        (fun c => channel_step (setOk c) (txOk c) c (seed c))) = l := by
  intro l
  induction l with
  | nil => rfl
  | cons a l ih =>
    simp only [List.flatMap_cons, attempted_channels, List.filterMap_append]
    show attempted_channels (channel_step (setOk a) (txOk a) a (seed a))
      ++ attempted_channels (l.flatMap
        (fun c => channel_step (setOk c) (txOk c) c (seed c))) = a :: l
    rw [ih]
    by_cases h : setOk a <;> simp [channel_step, attempted_channels, h]

theorem transmit_count_le (setOk txOk : Nat → Bool) (seed : Nat → Nat) (c : Nat) :
    ∀ l : List Nat,
      (l.flatMap (fun x => channel_step (setOk x) (txOk x) x (seed x))).countP
        (transmits_on c) ≤ l.count c := by
  intro l
  induction l with
  | nil => simp
  | cons a l ih =>
    rw [List.flatMap_cons, List.countP_append, List.count_cons]
    have hstep : (channel_step (setOk a) (txOk a) a (seed a)).countP
        (transmits_on c) ≤ if a == c then 1 else 0 := by
      by_cases hac : a = c
      · subst hac
        by_cases h : setOk a <;>
          simp [channel_step, h, List.countP_cons, transmits_on]
      · by_cases h : setOk a <;>
          simp [channel_step, h, hac, List.countP_cons, transmits_on]
    omega

/-- Claim C6: whatever the per-channel outcomes of `set_channel` and `write`,
a range pass attempts a `set_channel` on exactly the channels
`start..=end` in order (so a failure on channel `c` terminates nothing and
does not prevent `c + 1` from being attempted), each channel is attempted
exactly once (no retry), each channel is transmitted on at most once (no
retry of a payload), and the loop still advances the range index afterwards. -/
theorem sweep_failures_c6 (setOk txOk : Nat → Bool) (seed : Nat → Nat)
    (s e c i : Nat) (ranges : List (Nat × Nat)) :
    attempted_channels (range_pass setOk txOk seed s e) = List.range' s (e + 1 - s)
    ∧ (attempted_channels (range_pass setOk txOk seed s e)).Nodup
    ∧ (range_pass setOk txOk seed s e).countP (transmits_on c) ≤ 1
    ∧ (sweep_loop_body setOk txOk seed ranges i).2 = (i + 1) % ranges.length := by
  have ha := attempted_channel_steps setOk txOk seed (List.range' s (e + 1 - s))
  refine ⟨ha, ?_, ?_, rfl⟩
  · unfold range_pass
    rw [ha]
    exact List.nodup_range' ..
  · calc (range_pass setOk txOk seed s e).countP (transmits_on c)
        ≤ (List.range' s (e + 1 - s)).count c :=
          transmit_count_le setOk txOk seed c (List.range' s (e + 1 - s))
      _ ≤ 1 := List.nodup_iff_count_le_one.mp (List.nodup_range' ..) c

/-- Claim C8 counterexample: the body "+1+2+3" is not six ASCII hex digits,
yet the handler accepts it (Rust's `u8::from_str_radix` consumes a leading
`+` sign) and sets the color (1, 2, 3); and the 6-byte valid-UTF-8 body
"a\u{e9}\u{e9}a" (bytes 97,195,169,195,169,97) makes `value.get(0..2)`
return `None`, so the handler's `unwrap` panics instead of producing an
error response. -/
theorem color_c8_counterexample :
    color_handler [43, 49, 43, 50, 43, 51] = HandlerOutcome.colorSet 1 2 3
    ∧ ([43, 49, 43, 50, 43, 51] : List Nat).all is_ascii_hexdigit = false
    ∧ color_handler [97, 195, 169, 195, 169, 97] = HandlerOutcome.panic
    ∧ valid_utf8 [97, 195, 169, 195, 169, 97] = true := by
  decide

theorem to_digit_16_facts {x v : Nat} (h : to_digit_16 x = some v) :
    48 ≤ x ∧ x ≤ 102 ∧ v ≤ 15 ∧ x ≠ 43 ∧ x ≤ 127 := by
  unfold to_digit_16 at h
  split_ifs at h with h1 h2 h3
  · injection h with hv; omega
  · injection h with hv; omega
  · injection h with hv; omega

theorem parse_u8_digits_pair {x y vx vy : Nat}
    (hx : to_digit_16 x = some vx) (hy : to_digit_16 y = some vy) :
    parse_u8_digits [x, y] 0 = some (16 * vx + vy) := by
  have fx := to_digit_16_facts hx
  have fy := to_digit_16_facts hy
  have s1 : parse_u8_digits [x, y] 0
      = match to_digit_16 x with
        | none => none
        | some v => if 0 * 16 + v ≤ 255 then parse_u8_digits [y] (0 * 16 + v)
                    else none := rfl
  rw [s1, hx]
  show (if 0 * 16 + vx ≤ 255 then parse_u8_digits [y] (0 * 16 + vx) else none)
    = some (16 * vx + vy)
  rw [if_pos (by omega : 0 * 16 + vx ≤ 255)]
  have s2 : parse_u8_digits [y] (0 * 16 + vx)
      = match to_digit_16 y with
        | none => none
        | some v => if (0 * 16 + vx) * 16 + v ≤ 255 then some ((0 * 16 + vx) * 16 + v)
                    else none := rfl
  rw [s2, hy]
  show (if (0 * 16 + vx) * 16 + vy ≤ 255 then some ((0 * 16 + vx) * 16 + vy) else none)
    = some (16 * vx + vy)
  rw [if_pos (by omega : (0 * 16 + vx) * 16 + vy ≤ 255)]
  have hv : (0 * 16 + vx) * 16 + vy = 16 * vx + vy := by omega
  rw [hv]

theorem from_str_radix_u8_pair {x y vx vy : Nat}
    (hx : to_digit_16 x = some vx) (hy : to_digit_16 y = some vy) :
    from_str_radix_u8 [x, y] = some (16 * vx + vy) := by
  have fx := to_digit_16_facts hx
  have step : from_str_radix_u8 [x, y]
      = if x = 43 then (if ([y] : List Nat) = [] then none else parse_u8_digits [y] 0)
        else parse_u8_digits [x, y] 0 := rfl
  rw [step, if_neg (by omega : ¬ x = 43)]
  exact parse_u8_digits_pair hx hy

theorem utf8_class_ascii {x : Nat} (hx : x ≤ 127) :
    utf8_class x = some (0, 0, 0) := by
  unfold utf8_class
  rw [if_pos hx]

theorem valid_utf8_ascii : ∀ l : List Nat, (∀ x ∈ l, x ≤ 127) →
    valid_utf8 l = true := by
  intro l
  induction l with
  | nil => intro _; rfl
  | cons x l ih =>
    intro h
    show valid_utf8_go (x :: l) 0 0 0 = true
    rw [valid_utf8_go.eq_2, if_pos rfl, utf8_class_ascii (h x (by simp))]
    exact ih (fun y hy => h y (by simp [hy]))

theorem color_try_from_hex {a b c d e f va vb vc vd ve vf : Nat}
    (ha : to_digit_16 a = some va) (hb : to_digit_16 b = some vb)
    (hc : to_digit_16 c = some vc) (hd : to_digit_16 d = some vd)
    (he : to_digit_16 e = some ve) (hf : to_digit_16 f = some vf) :
    color_try_from [a, b, c, d, e, f]
      = HandlerOutcome.colorSet (16 * va + vb) (16 * vc + vd) (16 * ve + vf) := by
  have fc := to_digit_16_facts hc
  have fe := to_digit_16_facts he
  have hb0 : is_char_boundary [a, b, c, d, e, f] 0 = true := rfl
  have hb2 : is_char_boundary [a, b, c, d, e, f] 2 = true := by
    simp [is_char_boundary, utf8_cont]
    omega
  have hb4 : is_char_boundary [a, b, c, d, e, f] 4 = true := by
    simp [is_char_boundary, utf8_cont]
    omega
  have hb6 : is_char_boundary [a, b, c, d, e, f] 6 = true := by
    simp [is_char_boundary]
  have e1 : from_str_radix_u8 [a, b] = some (16 * va + vb) :=
    from_str_radix_u8_pair ha hb
  have e2 : from_str_radix_u8 [c, d] = some (16 * vc + vd) :=
    from_str_radix_u8_pair hc hd
  have e3 : from_str_radix_u8 [e, f] = some (16 * ve + vf) :=
    from_str_radix_u8_pair he hf
  simp [color_try_from, hb0, hb2, hb4, hb6, e1, e2, e3]

theorem parse_pair_ascii {x y v : Nat} (h : from_str_radix_u8 [x, y] = some v) :
    x ≤ 127 ∧ y ≤ 127 := by
  have step : from_str_radix_u8 [x, y]
      = if x = 43 then (if ([y] : List Nat) = [] then none else parse_u8_digits [y] 0)
        else parse_u8_digits [x, y] 0 := rfl
  rw [step] at h
  by_cases hx : x = 43
  · rw [if_pos hx, if_neg (by simp)] at h
    have s1 : parse_u8_digits [y] 0
        = match to_digit_16 y with
          | none => none
          | some w => if 0 * 16 + w ≤ 255 then some (0 * 16 + w) else none := rfl
    rw [s1] at h
    cases hty : to_digit_16 y with
    | none => rw [hty] at h; simp at h
    | some w =>
      have fy := to_digit_16_facts hty
      omega
  · rw [if_neg hx] at h
    have s1 : parse_u8_digits [x, y] 0
        = match to_digit_16 x with
          | none => none
          | some w => if 0 * 16 + w ≤ 255 then parse_u8_digits [y] (0 * 16 + w)
                      else none := rfl
    rw [s1] at h
    cases htx : to_digit_16 x with
    | none => rw [htx] at h; simp at h
    | some w =>
      simp only [htx] at h
      have fx := to_digit_16_facts htx
      by_cases hle : 0 * 16 + w ≤ 255
      · rw [if_pos hle] at h
        have s2 : parse_u8_digits [y] (0 * 16 + w)
            = match to_digit_16 y with
              | none => none
              | some u => if (0 * 16 + w) * 16 + u ≤ 255
                          then some ((0 * 16 + w) * 16 + u) else none := rfl
        rw [s2] at h
        cases hty : to_digit_16 y with
        | none => rw [hty] at h; simp at h
        | some u =>
          have fy := to_digit_16_facts hty
          omega
      · rw [if_neg hle] at h
        simp at h

theorem ctf_panic_at2 (b0 b1 b2 b3 b4 b5 : Nat)
    (h2 : is_char_boundary [b0, b1, b2, b3, b4, b5] 2 = false) :
    color_try_from [b0, b1, b2, b3, b4, b5] = HandlerOutcome.panic := by
  simp [color_try_from, h2]

theorem ctf_err_pair1 (b0 b1 b2 b3 b4 b5 : Nat)
    (h2 : is_char_boundary [b0, b1, b2, b3, b4, b5] 2 = true)
    (hp1 : from_str_radix_u8 [b0, b1] = none) :
    color_try_from [b0, b1, b2, b3, b4, b5] = HandlerOutcome.errorResponse := by
  have h0 : is_char_boundary [b0, b1, b2, b3, b4, b5] 0 = true := rfl
  simp [color_try_from, h0, h2, hp1]

theorem ctf_panic_at4 (b0 b1 b2 b3 b4 b5 r : Nat)
    (h2 : is_char_boundary [b0, b1, b2, b3, b4, b5] 2 = true)
    (hp1 : from_str_radix_u8 [b0, b1] = some r)
    (h4 : is_char_boundary [b0, b1, b2, b3, b4, b5] 4 = false) :
    color_try_from [b0, b1, b2, b3, b4, b5] = HandlerOutcome.panic := by
  have h0 : is_char_boundary [b0, b1, b2, b3, b4, b5] 0 = true := rfl
  simp [color_try_from, h0, h2, hp1, h4]

theorem ctf_err_pair2 (b0 b1 b2 b3 b4 b5 r : Nat)
    (h2 : is_char_boundary [b0, b1, b2, b3, b4, b5] 2 = true)
    (h4 : is_char_boundary [b0, b1, b2, b3, b4, b5] 4 = true)
    (hp1 : from_str_radix_u8 [b0, b1] = some r)
    (hp2 : from_str_radix_u8 [b2, b3] = none) :
    color_try_from [b0, b1, b2, b3, b4, b5] = HandlerOutcome.errorResponse := by
  have h0 : is_char_boundary [b0, b1, b2, b3, b4, b5] 0 = true := rfl
  simp [color_try_from, h0, h2, h4, hp1, hp2]

theorem ctf_err_pair3 (b0 b1 b2 b3 b4 b5 r g : Nat)
    (h2 : is_char_boundary [b0, b1, b2, b3, b4, b5] 2 = true)
    (h4 : is_char_boundary [b0, b1, b2, b3, b4, b5] 4 = true)
    (hp1 : from_str_radix_u8 [b0, b1] = some r)
    (hp2 : from_str_radix_u8 [b2, b3] = some g)
    (hp3 : from_str_radix_u8 [b4, b5] = none) :
    color_try_from [b0, b1, b2, b3, b4, b5] = HandlerOutcome.errorResponse := by
  have h0 : is_char_boundary [b0, b1, b2, b3, b4, b5] 0 = true := rfl
  have h6 : is_char_boundary [b0, b1, b2, b3, b4, b5] 6 = true := by
    simp [is_char_boundary]
  simp [color_try_from, h0, h2, h4, h6, hp1, hp2, hp3]

theorem ctf_color (b0 b1 b2 b3 b4 b5 r g b : Nat)
    (h2 : is_char_boundary [b0, b1, b2, b3, b4, b5] 2 = true)
    (h4 : is_char_boundary [b0, b1, b2, b3, b4, b5] 4 = true)
    (hp1 : from_str_radix_u8 [b0, b1] = some r)
    (hp2 : from_str_radix_u8 [b2, b3] = some g)
    (hp3 : from_str_radix_u8 [b4, b5] = some b) :
    color_try_from [b0, b1, b2, b3, b4, b5] = HandlerOutcome.colorSet r g b := by
  have h0 : is_char_boundary [b0, b1, b2, b3, b4, b5] 0 = true := rfl
  have h6 : is_char_boundary [b0, b1, b2, b3, b4, b5] 6 = true := by
    simp [is_char_boundary]
  simp [color_try_from, h0, h2, h4, h6, hp1, hp2, hp3]

theorem color_handler_six_valid (b0 b1 b2 b3 b4 b5 : Nat)
    (h : valid_utf8 [b0, b1, b2, b3, b4, b5] = true) :
    color_handler [b0, b1, b2, b3, b4, b5]
      = color_try_from [b0, b1, b2, b3, b4, b5] := by
  simp [color_handler, h]

theorem bd_of_ascii (b0 b1 b2 b3 b4 b5 : Nat) (h2 : b2 ≤ 127) (h4 : b4 ≤ 127) :
    is_char_boundary [b0, b1, b2, b3, b4, b5] 2 = true
    ∧ is_char_boundary [b0, b1, b2, b3, b4, b5] 4 = true := by
  constructor <;> · simp [is_char_boundary, utf8_cont]; omega

/-- Claim C8 amended: the handler's behavior on every request body. A body
shorter than 6 bytes is an error response, and only the first 6 bytes of a
longer body matter. For a 6-byte body the cases below are exhaustive and
mutually exclusive, so the original claim's "any other input is a parse
failure surfaced as an error response (never a crash)" fails in exactly two
ways and holds everywhere else: (a) invalid UTF-8 is an error response;
(b) a valid-UTF-8 body whose byte at offset 2 is a UTF-8 continuation byte
(a multi-byte character straddling the first `value.get` boundary) panics
the handler; (c) with offset 2 a boundary, a first pair rejected by
`u8::from_str_radix` is an error response; (d) with the first pair accepted,
a continuation byte at offset 4 panics the handler; (e, f) a rejected second
or third pair is an error response; (g) whenever all three byte pairs are
accepted by the integer parser — which includes every six-hex-digit body but
also sign-prefixed pairs such as "+1+2+3" — the parsed triple is applied as
the three duty cycles; in particular (h) six ASCII hex digits are applied as
(r from digits 0..2, g from 2..4, b from 4..6). -/
theorem color_c8_amended (b0 b1 b2 b3 b4 b5 : Nat) (bs : List Nat) :
    (bs.length < 6 → color_handler bs = HandlerOutcome.errorResponse)
    ∧ (6 ≤ bs.length → color_handler bs = color_handler (bs.take 6))
    ∧ (valid_utf8 [b0, b1, b2, b3, b4, b5] = false →
        color_handler [b0, b1, b2, b3, b4, b5] = HandlerOutcome.errorResponse)
    ∧ (valid_utf8 [b0, b1, b2, b3, b4, b5] = true →
        is_char_boundary [b0, b1, b2, b3, b4, b5] 2 = false →
        color_handler [b0, b1, b2, b3, b4, b5] = HandlerOutcome.panic)
    ∧ (valid_utf8 [b0, b1, b2, b3, b4, b5] = true →
        is_char_boundary [b0, b1, b2, b3, b4, b5] 2 = true →
        from_str_radix_u8 [b0, b1] = none →
        color_handler [b0, b1, b2, b3, b4, b5] = HandlerOutcome.errorResponse)
    ∧ (∀ r : Nat, valid_utf8 [b0, b1, b2, b3, b4, b5] = true →
        is_char_boundary [b0, b1, b2, b3, b4, b5] 2 = true →
        from_str_radix_u8 [b0, b1] = some r →
        is_char_boundary [b0, b1, b2, b3, b4, b5] 4 = false →
        color_handler [b0, b1, b2, b3, b4, b5] = HandlerOutcome.panic)
    ∧ (∀ r : Nat, valid_utf8 [b0, b1, b2, b3, b4, b5] = true →
        is_char_boundary [b0, b1, b2, b3, b4, b5] 2 = true →
        is_char_boundary [b0, b1, b2, b3, b4, b5] 4 = true →
        from_str_radix_u8 [b0, b1] = some r →
        from_str_radix_u8 [b2, b3] = none →
        color_handler [b0, b1, b2, b3, b4, b5] = HandlerOutcome.errorResponse)
    ∧ (∀ r g : Nat, valid_utf8 [b0, b1, b2, b3, b4, b5] = true →
        is_char_boundary [b0, b1, b2, b3, b4, b5] 2 = true →
        is_char_boundary [b0, b1, b2, b3, b4, b5] 4 = true →
        from_str_radix_u8 [b0, b1] = some r →
        from_str_radix_u8 [b2, b3] = some g →
        from_str_radix_u8 [b4, b5] = none →
        color_handler [b0, b1, b2, b3, b4, b5] = HandlerOutcome.errorResponse)
    ∧ (∀ r g b : Nat, from_str_radix_u8 [b0, b1] = some r →
        from_str_radix_u8 [b2, b3] = some g →
        from_str_radix_u8 [b4, b5] = some b →
        color_handler [b0, b1, b2, b3, b4, b5] = HandlerOutcome.colorSet r g b)
    ∧ (∀ va vb vc vd ve vf : Nat, to_digit_16 b0 = some va →
        to_digit_16 b1 = some vb → to_digit_16 b2 = some vc →
        to_digit_16 b3 = some vd → to_digit_16 b4 = some ve →
        to_digit_16 b5 = some vf →
        color_handler [b0, b1, b2, b3, b4, b5]
          = HandlerOutcome.colorSet (16 * va + vb) (16 * vc + vd) (16 * ve + vf)) := by
  have hall : ∀ r g b : Nat, from_str_radix_u8 [b0, b1] = some r →
      from_str_radix_u8 [b2, b3] = some g →
      from_str_radix_u8 [b4, b5] = some b →
      color_handler [b0, b1, b2, b3, b4, b5] = HandlerOutcome.colorSet r g b := by
    intro r g b hp1 hp2 hp3
    have a1 := parse_pair_ascii hp1
    have a2 := parse_pair_ascii hp2
    have a3 := parse_pair_ascii hp3
    have hvu : valid_utf8 [b0, b1, b2, b3, b4, b5] = true := by
      apply valid_utf8_ascii
      intro x hx
      simp only [List.mem_cons, List.not_mem_nil, or_false] at hx
      rcases hx with h | h | h | h | h | h <;> omega
    have hbd := bd_of_ascii b0 b1 b2 b3 b4 b5 a2.1 a3.1
    rw [color_handler_six_valid b0 b1 b2 b3 b4 b5 hvu]
    exact ctf_color b0 b1 b2 b3 b4 b5 r g b hbd.1 hbd.2 hp1 hp2 hp3
  refine ⟨?_, ?_, ?_, ?_, ?_, ?_, ?_, ?_, hall, ?_⟩
  · intro h
    simp [color_handler, h]
  · intro h
    simp only [color_handler]
    rw [if_neg (by omega : ¬ bs.length < 6)]
    rw [if_neg (show ¬ (bs.take 6).length < 6 by simp [List.length_take]; omega)]
    rw [List.take_take, Nat.min_self]
  · intro h
    simp [color_handler, h]
  · intro hvu h2
    rw [color_handler_six_valid b0 b1 b2 b3 b4 b5 hvu]
    exact ctf_panic_at2 b0 b1 b2 b3 b4 b5 h2
  · intro hvu h2 hp1
    rw [color_handler_six_valid b0 b1 b2 b3 b4 b5 hvu]
    exact ctf_err_pair1 b0 b1 b2 b3 b4 b5 h2 hp1
  · intro r hvu h2 hp1 h4
    rw [color_handler_six_valid b0 b1 b2 b3 b4 b5 hvu]
    exact ctf_panic_at4 b0 b1 b2 b3 b4 b5 r h2 hp1 h4
  · intro r hvu h2 h4 hp1 hp2
    rw [color_handler_six_valid b0 b1 b2 b3 b4 b5 hvu]
    exact ctf_err_pair2 b0 b1 b2 b3 b4 b5 r h2 h4 hp1 hp2
  · intro r g hvu h2 h4 hp1 hp2 hp3
    rw [color_handler_six_valid b0 b1 b2 b3 b4 b5 hvu]
    exact ctf_err_pair3 b0 b1 b2 b3 b4 b5 r g h2 h4 hp1 hp2 hp3
  · intro va vb vc vd ve vf ha hb hc hd he hf
    exact hall (16 * va + vb) (16 * vc + vd) (16 * ve + vf)
      (from_str_radix_u8_pair ha hb) (from_str_radix_u8_pair hc hd)
      (from_str_radix_u8_pair he hf)

/-- Witness for the amended C8 theorem, exercising every case of the
characterization at a concrete body: a short body, truncation of a 7-byte
body, invalid UTF-8, a continuation byte at offset 2 (panic), a rejected
first pair, a continuation byte at offset 4 after an accepted first pair
(panic), rejected second and third pairs, the sign-prefixed body "+1+2+3",
and the hex body "ff0123". -/
theorem color_c8_amended_witness :
    color_handler [48] = HandlerOutcome.errorResponse
    ∧ color_handler [48, 48, 48, 48, 48, 48, 48]
        = color_handler [48, 48, 48, 48, 48, 48]
    ∧ color_handler [255, 48, 48, 48, 48, 48] = HandlerOutcome.errorResponse
    ∧ color_handler [48, 195, 169, 48, 48, 48] = HandlerOutcome.panic
    ∧ color_handler [122, 122, 48, 48, 48, 48] = HandlerOutcome.errorResponse
    ∧ color_handler [48, 48, 48, 195, 169, 48] = HandlerOutcome.panic
    ∧ color_handler [48, 48, 122, 122, 48, 48] = HandlerOutcome.errorResponse
    ∧ color_handler [48, 48, 48, 48, 122, 122] = HandlerOutcome.errorResponse
    ∧ color_handler [43, 49, 43, 50, 43, 51] = HandlerOutcome.colorSet 1 2 3
    ∧ color_handler [102, 102, 48, 49, 50, 51]
        = HandlerOutcome.colorSet (16 * 15 + 15) (16 * 0 + 1) (16 * 2 + 3) :=
  ⟨(color_c8_amended 0 0 0 0 0 0 [48]).1 (by decide),
   (color_c8_amended 0 0 0 0 0 0 [48, 48, 48, 48, 48, 48, 48]).2.1 (by decide),
   (color_c8_amended 255 48 48 48 48 48 []).2.2.1 (by decide),
   (color_c8_amended 48 195 169 48 48 48 []).2.2.2.1 (by decide) (by decide),
   (color_c8_amended 122 122 48 48 48 48 []).2.2.2.2.1 (by decide) (by decide)
     (by decide),
   (color_c8_amended 48 48 48 195 169 48 []).2.2.2.2.2.1 0 (by decide) (by decide)
     (by decide) (by decide),
   (color_c8_amended 48 48 122 122 48 48 []).2.2.2.2.2.2.1 0 (by decide) (by decide)
     (by decide) (by decide) (by decide),
   (color_c8_amended 48 48 48 48 122 122 []).2.2.2.2.2.2.2.1 0 0 (by decide)
     (by decide) (by decide) (by decide) (by decide) (by decide),
   (color_c8_amended 43 49 43 50 43 51 []).2.2.2.2.2.2.2.2.1 1 2 3 (by decide)
     (by decide) (by decide),
   (color_c8_amended 102 102 48 49 50 51 []).2.2.2.2.2.2.2.2.2 15 15 0 1 2 3
     (by decide) (by decide) (by decide) (by decide) (by decide) (by decide)⟩
